import Mathlib

/-!
Verification development for the endpoint-control generator core
(registries, artifact service, generators, controls).

The Python source is shallowly embedded: Python dicts become association
lists in insertion order (Python 3.7+ dicts preserve insertion order;
assignment to an existing key keeps its position), exceptions become an
`Option String` error component or an `Except`, and `datetime.now()`
becomes an explicit `Timestamp` argument threaded to every `generate`
call.  Machine-level aliasing (defensive copies) is modelled separately
with an explicit heap of dictionary references.
-/

/-- Python values as they appear in a settings mapping: strings, booleans,
lists and string-keyed dicts (the only shapes the repository uses). -/
inductive Value where
  | str : String → Value
  | bool : Bool → Value
  | list : List Value → Value
  | dict : List (String × Value) → Value

/-- A Python settings dict: string keys to values, in insertion order. -/
def Settings : Type := List (String × Value)

/-- Association-list lookup, first match — Python `d[k]` / `d.get(k)`
(keys are unique in every dict actually built by the source). -/
def dictLookup {α : Type} : List (String × α) → String → Option α
  | [], _ => none
  | p :: rest, k => if p.1 = k then some p.2 else dictLookup rest k

/-- Python `k in d`. -/
def dictContains {α : Type} (l : List (String × α)) (k : String) : Bool :=
  (dictLookup l k).isSome

/-- Python `d[k] = v`: overwrite in place (keeping the key's position) if
the key is present, else append at the end. -/
def dictSet {α : Type} : List (String × α) → String → α → List (String × α)
  | [], k, v => [(k, v)]
  | p :: rest, k, v => if p.1 = k then (k, v) :: rest else p :: dictSet rest k v

/-- Python `d.get(k, default)`. -/
def dictGetD (l : Settings) (k : String) (d : Value) : Value :=
  (dictLookup l k).getD d

/-- `.items()` of a value expected to be a dict (totalised: non-dicts give
the empty item list where Python would raise a `TypeError`). -/
def Value.items : Value → List (String × Value)
  | .dict l => l
  | _ => []

/-- Elements of a value expected to be a list (totalised as for `items`). -/
def Value.asList : Value → List Value
  | .list l => l
  | _ => []

/-- Python `str(v)` as used by f-string interpolation in the generators.
The source only ever interpolates strings; other shapes are totalised. -/
def Value.pyStr : Value → String
  | .str s => s
  | .bool b => if b then "True" else "False"
  | _ => ""

/-- Python truthiness of a value (`if settings.get(k):`). -/
def Value.truthy : Value → Bool
  | .str s => s ≠ ""
  | .bool b => b
  | .list l => !l.isEmpty
  | .dict l => !l.isEmpty

/-- `rule['name']`-style access: field of a dict-shaped value rendered as
a string (totalised: a missing key gives `""` where Python raises). -/
def Value.field (v : Value) (k : String) : String :=
  ((dictLookup v.items k).getD (.str "")).pyStr

/-- Python `"sep".join(lines)`. -/
def pyJoin (sep : String) : List String → String
  | [] => ""
  | [a] => a
  | a :: b :: rest => a ++ sep ++ pyJoin sep (b :: rest)

/-- The two `strftime` renderings of one `datetime.now()` instant that the
generators use: `%Y-%m-%d %H:%M:%S` and `%Y%m%d%H%M`. -/
structure Timestamp where
  ymd_hms : String
  ymd_hm : String

/-- `RiskLevel` enum from core/interfaces.py. -/
inductive RiskLevel where
  | low | medium | high
deriving DecidableEq

/-- `SecurityControlMetadata` dataclass from core/interfaces.py. -/
structure SecurityControlMetadata where
  name : String
  description : String
  risk_level : RiskLevel
  purpose : String
  common_targets : Option (List String) := none
  category : Option String := none

/-- `IArtifactGenerator` from core/interfaces.py: the capability record of
a generator.  `generate` takes the `datetime.now()` instant explicitly. -/
structure IArtifactGenerator where
  generate : String → Settings → Timestamp → String
  get_file_extension : String
  get_mime_type : String
  supports_settings : Settings → Bool

/-- `BaseArtifactGenerator.supports_settings` from generators/base_generator.py:
the inherited default accepts every settings mapping. -/
def BaseArtifactGenerator.supports_settings : Settings → Bool :=
  fun _ => true

/-- `BaseSecurityControl` from core/base_control.py.  A control's class
supplies `validate_settings`; the mutable `_settings` starts empty. -/
structure BaseSecurityControl where
  metadata : SecurityControlMetadata
  validate_settings : Settings → Bool
  _settings : Settings := []

/-- The `settings` property getter (returns `self._settings.copy()`; a
copy of a pure value is the value itself). -/
def BaseSecurityControl.settings (c : BaseSecurityControl) : Settings :=
  c._settings

/-- The `settings` property setter from core/base_control.py: validate,
then replace; on failure raise `ValueError(f"Invalid settings for {name}")`.
The result pairs the raised message (if any) with the control state after
the call — on an exception the state is the unchanged receiver. -/
def BaseSecurityControl.settings_set (c : BaseSecurityControl) (value : Settings) :
    Option String × BaseSecurityControl :=
  if c.validate_settings value then
    (none, { c with _settings := value })
  else
    (some ("Invalid settings for " ++ c.metadata.name), c)

/-- `get_control_name` from core/base_control.py. -/
def BaseSecurityControl.get_control_name (c : BaseSecurityControl) : String :=
  c.metadata.name.replace " " "_"

/-- A Python control class: calling it constructs the instance `new`
(every constructor in the repository is deterministic, so the freshly
constructed state is one fixed value per class). -/
structure ControlClass where
  new : BaseSecurityControl

/-- A UI renderer instance (internals are out of the core's scope; only
identity of construction matters to the registry contract). -/
structure IUIRenderer where
  tag : String

/-- A Python renderer class, as for `ControlClass`. -/
structure RendererClass where
  new : IUIRenderer

/-- `ControlRegistry` state from core/registries.py. -/
structure ControlRegistry where
  _controls : List (String × ControlClass) := []
  _ui_renderers : List (String × RendererClass) := []

/-- `ControlRegistry.register_control`: instantiate the class once to read
its metadata name, store the class under that name, and the renderer class
(when given) under the same name. -/
def ControlRegistry.register_control (r : ControlRegistry)
    (control_class : ControlClass) (ui_renderer_class : Option RendererClass) :
    ControlRegistry :=
  let control_name := control_class.new.metadata.name
  let r1 : ControlRegistry :=
    { r with _controls := dictSet r._controls control_name control_class }
  match ui_renderer_class with
  | some rc => { r1 with _ui_renderers := dictSet r1._ui_renderers control_name rc }
  | none => r1

/-- `ControlRegistry.get_available_controls` (returns `self._controls.copy()`). -/
def ControlRegistry.get_available_controls (r : ControlRegistry) :
    List (String × ControlClass) :=
  r._controls

/-- `ControlRegistry.create_control`: raise `ValueError` when the name was
never registered, else call the stored class to build a fresh instance. -/
def ControlRegistry.create_control (r : ControlRegistry) (control_name : String) :
    Except String BaseSecurityControl :=
  match dictLookup r._controls control_name with
  | none => .error ("Control \x27" ++ control_name ++ "\x27 not found in registry")
  | some c => .ok c.new

/-- `ControlRegistry.get_ui_renderer`: `None` when no renderer was
registered for the name, else a fresh instance of the stored class. -/
def ControlRegistry.get_ui_renderer (r : ControlRegistry) (control_name : String) :
    Option IUIRenderer :=
  match dictLookup r._ui_renderers control_name with
  | none => none
  | some rc => some rc.new

/-- `GeneratorRegistry` state from core/registries.py. -/
structure GeneratorRegistry where
  _generators : List (String × IArtifactGenerator) := []

/-- `GeneratorRegistry.register_generator`. -/
def GeneratorRegistry.register_generator (r : GeneratorRegistry)
    (name : String) (generator : IArtifactGenerator) : GeneratorRegistry :=
  { _generators := dictSet r._generators name generator }

/-- `GeneratorRegistry.get_generator` (`dict.get`: `None` when absent). -/
def GeneratorRegistry.get_generator (r : GeneratorRegistry) (name : String) :
    Option IArtifactGenerator :=
  dictLookup r._generators name

/-- `GeneratorRegistry.get_all_generators` (returns `self._generators.copy()`). -/
def GeneratorRegistry.get_all_generators (r : GeneratorRegistry) :
    List (String × IArtifactGenerator) :=
  r._generators

/-- `GeneratorRegistry.get_compatible_generators`: loop over the registered
generators in insertion order, keeping those whose `supports_settings`
accepts the settings. -/
def GeneratorRegistry.get_compatible_generators (r : GeneratorRegistry)
    (settings : Settings) : List (String × IArtifactGenerator) :=
  r._generators.foldl
    (fun compatible p =>
      if p.2.supports_settings settings then compatible ++ [p] else compatible)
    []

/-- Model of iterating a CPython `set(...)` built from a list of strings:
first-occurrence order.  (CPython's set iteration order is hash-dependent
but fixed within one process, so any two identically-built sets iterate
identically; the model fixes one canonical such order.) -/
def pySet (l : List String) : List String :=
  l.foldl (fun acc x => if acc.contains x then acc else acc ++ [x]) []

/-- `RegistryGenerator.generate` from generators/registry_generator.py. -/
def RegistryGenerator.generate (control_name : String) (settings : Settings)
    (t : Timestamp) : String :=
  let reg_lines : List String := [
    "Windows Registry Editor Version 5.00",
    "",
    "; Windows Security Control: " ++ control_name,
    "; Generated: " ++ t.ymd_hms,
    ""]
  let reg_lines :=
    if dictContains settings "file_associations" then
      (dictGetD settings "file_associations" (.dict [])).items.foldl
        (fun acc p =>
          acc ++
            ["[HKEY_LOCAL_MACHINE\\SOFTWARE\\Classes\\" ++ p.1 ++ "]",
             "@=\x22" ++ p.2.pyStr ++ "File\x22",
             "",
             "[HKEY_LOCAL_MACHINE\\SOFTWARE\\Classes\\" ++ p.2.pyStr ++
               "File\\shell\\open\\command]",
             "@=\x22" ++ p.2.pyStr ++ " \\\x22%1\\\x22\x22",
             ""])
        (reg_lines ++
          ["; File Association Changes",
           "; Using HKLM\\SOFTWARE\\Classes instead of HKCR to avoid dynamic generation issues"])
    else reg_lines
  pyJoin "\n" reg_lines

/-- `RegistryGenerator.supports_settings`. -/
def RegistryGenerator.supports_settings (settings : Settings) : Bool :=
  dictContains settings "file_associations"

/-- The `RegistryGenerator()` instance registered by the app factory. -/
def RegistryGenerator : IArtifactGenerator :=
  { generate := RegistryGenerator.generate
    get_file_extension := "reg"
    get_mime_type := "text/plain"
    supports_settings := RegistryGenerator.supports_settings }

/-- `PowerShellGenerator._generate_file_association_script`. -/
def PowerShellGenerator.file_association_script
    (file_associations : List (String × Value)) : List String :=
  let lines : List String := [
    "# File Association Security Control",
    "Write-Host \x27Modifying file associations via registry...\x27 -ForegroundColor Yellow",
    ""]
  let unique_apps := pySet (file_associations.map (fun p => p.2.pyStr))
  let lines := lines ++ ["# Set up file type handlers"]
  let lines := unique_apps.foldl
    (fun acc app =>
      acc ++
        ["New-Item -Path \x27HKLM:\\SOFTWARE\\Classes\\" ++ app ++
           "File\\shell\\open\\command\x27 -Force | Out-Null",
         "Set-ItemProperty -Path \x27HKLM:\\SOFTWARE\\Classes\\" ++ app ++
           "File\\shell\\open\\command\x27 -Name \x27(Default)\x27 -Value \x27\x22" ++
           app ++ "\x22 \x22%1\x22\x27"])
    lines
  let lines := lines ++ ["", "# Associate extensions with handlers"]
  let lines := file_associations.foldl
    (fun acc p =>
      acc ++
        ["New-Item -Path \x27HKLM:\\SOFTWARE\\Classes\\" ++ p.1 ++
           "\x27 -Force | Out-Null",
         "Set-ItemProperty -Path \x27HKLM:\\SOFTWARE\\Classes\\" ++ p.1 ++
           "\x27 -Name \x27(Default)\x27 -Value \x27" ++ p.2.pyStr ++ "File\x27"])
    lines
  lines ++ [""]

/-- `PowerShellGenerator._generate_firewall_script`. -/
def PowerShellGenerator.firewall_script (firewall_rules : List Value) : List String :=
  let lines : List String := [
    "# Windows Firewall Rules",
    "Write-Host \x27Adding firewall rules...\x27 -ForegroundColor Yellow",
    ""]
  let lines := firewall_rules.foldl
    (fun acc rule =>
      acc ++
        ["New-NetFirewallRule -DisplayName \x27" ++ rule.field "name" ++
           "\x27 -Direction Outbound -Program \x27" ++ rule.field "program" ++
           "\x27 -Action Block -Protocol TCP"])
    lines
  lines ++ [""]

/-- `PowerShellGenerator._generate_winx_script`. -/
def PowerShellGenerator.winx_script (winx_removal : List Value) : List String :=
  let lines : List String := [
    "# WinX Menu Modification - Apply to all users and default profile",
    "Write-Host \x27Modifying WinX menu for all users...\x27 -ForegroundColor Yellow",
    "",
    "# Get all user profile paths",
    "$userProfiles = Get-ChildItem \x22C:\\Users\x22 -Directory | Where-Object \x7b $_.Name -notin @(\x22Public\x22, \x22Default\x22, \x22All Users\x22, \x22Default User\x22) \x7d",
    "",
    "# Modify WinX for each existing user",
    "foreach ($userProfile in $userProfiles) \x7b",
    "    $winxPath = Join-Path $userProfile.FullName \x22AppData\\Local\\Microsoft\\Windows\\WinX\x22",
    "    if (Test-Path $winxPath) \x7b",
    "        Write-Host \x22  Processing: $($userProfile.Name)\x22 -ForegroundColor Cyan"]
  let lines := winx_removal.foldl
    (fun acc item =>
      acc ++
        ["        Remove-Item -Path \x22$winxPath\\*" ++ item.pyStr ++
           "*\x22 -Recurse -Force -ErrorAction SilentlyContinue"])
    lines
  let lines := lines ++ [
    "    \x7d",
    "\x7d",
    "",
    "# Modify default user profile for new users",
    "$defaultWinxPath = \x22C:\\Users\\Default\\AppData\\Local\\Microsoft\\Windows\\WinX\x22",
    "if (Test-Path $defaultWinxPath) \x7b",
    "    Write-Host \x22  Processing: Default User Profile\x22 -ForegroundColor Cyan"]
  let lines := winx_removal.foldl
    (fun acc item =>
      acc ++
        ["    Remove-Item -Path \x22$defaultWinxPath\\*" ++ item.pyStr ++
           "*\x22 -Recurse -Force -ErrorAction SilentlyContinue"])
    lines
  lines ++ [
    "\x7d",
    "",
    "# Restart Explorer to apply changes",
    "Stop-Process -ProcessName explorer -Force -ErrorAction SilentlyContinue",
    "Start-Process explorer",
    ""]

/-- `PowerShellGenerator.generate`. -/
def PowerShellGenerator.generate (control_name : String) (settings : Settings)
    (t : Timestamp) : String :=
  let script_lines : List String := [
    "# Windows Security Control Implementation Script",
    "# Control: " ++ control_name,
    "# Generated: " ++ t.ymd_hms,
    "",
    "# Requires Administrator privileges",
    "if (-NOT ([Security.Principal.WindowsPrincipal] [Security.Principal.WindowsIdentity]::GetCurrent()).IsInRole([Security.Principal.WindowsBuiltInRole] \x27Administrator\x27)) \x7b",
    "    Write-Error \x27This script requires Administrator privileges\x27",
    "    exit 1",
    "\x7d",
    "",
    "Write-Host \x27Implementing security control...\x27 -ForegroundColor Green",
    ""]
  let script_lines :=
    if dictContains settings "file_associations" then
      script_lines ++ PowerShellGenerator.file_association_script
        (dictGetD settings "file_associations" (.dict [])).items
    else script_lines
  let script_lines :=
    if dictContains settings "firewall_rules" then
      script_lines ++ PowerShellGenerator.firewall_script
        (dictGetD settings "firewall_rules" (.list [])).asList
    else script_lines
  let script_lines :=
    if dictContains settings "winx_removal" then
      script_lines ++ PowerShellGenerator.winx_script
        (dictGetD settings "winx_removal" (.list [])).asList
    else script_lines
  let script_lines := script_lines ++ [
    "Write-Host \x27Security control implementation completed!\x27 -ForegroundColor Green",
    "Write-Host \x27Please reboot the system to ensure all changes take effect.\x27 -ForegroundColor Cyan"]
  pyJoin "\n" script_lines

/-- The `PowerShellGenerator()` instance; `supports_settings` is inherited
unchanged from `BaseArtifactGenerator`. -/
def PowerShellGenerator : IArtifactGenerator :=
  { generate := PowerShellGenerator.generate
    get_file_extension := "ps1"
    get_mime_type := "text/plain"
    supports_settings := BaseArtifactGenerator.supports_settings }

/-- `BatchGenerator.generate` from generators/batch_generator.py. -/
def BatchGenerator.generate (control_name : String) (settings : Settings)
    (t : Timestamp) : String :=
  let batch_lines : List String := [
    "@echo off",
    "REM Windows Security Control: " ++ control_name,
    "REM Generated: " ++ t.ymd_hms,
    "",
    "REM Check for administrator privileges",
    "net session >nul 2>&1",
    "if %errorLevel% neq 0 (",
    "    echo This script requires Administrator privileges",
    "    pause",
    "    exit /b 1",
    ")",
    "",
    "echo Implementing security control...",
    ""]
  let batch_lines :=
    if dictContains settings "file_associations" then
      ((dictGetD settings "file_associations" (.dict [])).items.foldl
        (fun acc p =>
          acc ++
            ["assoc " ++ p.1 ++ "=" ++ p.2.pyStr ++ "File",
             "ftype " ++ p.2.pyStr ++ "File=\x22" ++ p.2.pyStr ++ "\x22 \x22%%1\x22"])
        (batch_lines ++ ["REM File Association Changes"])) ++ [""]
    else batch_lines
  let batch_lines :=
    if dictContains settings "firewall_rules" then
      ((dictGetD settings "firewall_rules" (.list [])).asList.foldl
        (fun acc rule =>
          acc ++
            ["netsh advfirewall firewall add rule name=\x22" ++ rule.field "name" ++
             "\x22 dir=out action=block program=\x22" ++ rule.field "program" ++ "\x22"])
        (batch_lines ++ ["REM Windows Firewall Rules"])) ++ [""]
    else batch_lines
  let batch_lines :=
    if dictContains settings "winx_removal" then
      let winx := (dictGetD settings "winx_removal" (.list [])).asList
      let batch_lines := batch_lines ++ [
        "REM WinX Menu Modification - Apply to all users and default profile",
        "echo Modifying WinX menu for all users...",
        "",
        "REM Process each user profile",
        "for /D %%U in (C:\\Users\\*) do (",
        "    if exist \x22%%U\\AppData\\Local\\Microsoft\\Windows\\WinX\x22 (",
        "        echo Processing: %%~nxU"]
      let batch_lines := winx.foldl
        (fun acc item =>
          acc ++
            ["        del /F /S /Q \x22%%U\\AppData\\Local\\Microsoft\\Windows\\WinX\\*" ++
             item.pyStr ++ "*\x22 2>nul"])
        batch_lines
      let batch_lines := batch_lines ++ [
        "    )",
        ")",
        "",
        "REM Modify default user profile for new users",
        "if exist \x22C:\\Users\\Default\\AppData\\Local\\Microsoft\\Windows\\WinX\x22 (",
        "    echo Processing: Default User Profile"]
      let batch_lines := winx.foldl
        (fun acc item =>
          acc ++
            ["    del /F /S /Q \x22C:\\Users\\Default\\AppData\\Local\\Microsoft\\Windows\\WinX\\*" ++
             item.pyStr ++ "*\x22 2>nul"])
        batch_lines
      batch_lines ++ [
        ")",
        "",
        "REM Restart Explorer to apply changes",
        "taskkill /F /IM explorer.exe >nul 2>&1",
        "start explorer.exe",
        ""]
    else batch_lines
  let batch_lines :=
    if dictContains settings "disable_all_hotkeys" || dictContains settings "disabled_hotkeys" then
      let batch_lines := batch_lines ++ [
        "REM Windows Hotkey Control",
        "echo Configuring Windows hotkey restrictions...",
        ""]
      let batch_lines :=
        if (dictGetD settings "disable_all_hotkeys" (.bool false)).truthy then
          batch_lines ++ [
            "REM Disable ALL Windows hotkeys (system-wide)",
            "echo   Disabling all Windows hotkeys (system-wide)...",
            "reg add \x22HKLM\\Software\\Microsoft\\Windows\\CurrentVersion\\Policies\\Explorer\x22 /v NoWinKeys /t REG_DWORD /d 1 /f",
            ""]
        else batch_lines
      let dh := dictLookup settings "disabled_hotkeys"
      let batch_lines :=
        if (dh.getD (.str "")).truthy && (dh.getD (.str "")).asList.length > 0 then
          let hotkeys_string :=
            ((dh.getD (.str "")).asList.map Value.pyStr).foldl (· ++ ·) ""
          batch_lines ++ [
            "REM Disable specific Windows hotkeys: " ++ hotkeys_string,
            "echo   Disabling specific hotkeys: " ++ hotkeys_string,
            "",
            "REM Process each user profile",
            "for /D %%U in (C:\\Users\\*) do (",
            "    if exist \x22%%U\\NTUSER.DAT\x22 (",
            "        echo     Processing: %%~nxU",
            "        REM Load user hive",
            "        reg load \x22HKU\\TempUser_%%~nxU\x22 \x22%%U\\NTUSER.DAT\x22 2>nul",
            "        reg add \x22HKU\\TempUser_%%~nxU\\Software\\Microsoft\\Windows\\CurrentVersion\\Explorer\\Advanced\x22 /v DisabledHotkeys /t REG_SZ /d \x22" ++
              hotkeys_string ++ "\x22 /f 2>nul",
            "        reg unload \x22HKU\\TempUser_%%~nxU\x22 2>nul",
            "    )",
            ")",
            "",
            "REM Apply to default user profile for new users",
            "reg load \x22HKU\\DefaultUser\x22 \x22C:\\Users\\Default\\NTUSER.DAT\x22 2>nul",
            "reg add \x22HKU\\DefaultUser\\Software\\Microsoft\\Windows\\CurrentVersion\\Explorer\\Advanced\x22 /v DisabledHotkeys /t REG_SZ /d \x22" ++
              hotkeys_string ++ "\x22 /f 2>nul",
            "reg unload \x22HKU\\DefaultUser\x22 2>nul",
            ""]
        else batch_lines
      batch_lines
    else batch_lines
  let batch_lines := batch_lines ++ [
    "echo Security control implementation completed!",
    "echo Please reboot the system to ensure all changes take effect.",
    "pause"]
  pyJoin "\n" batch_lines

/-- The `BatchGenerator()` instance; `supports_settings` is inherited
unchanged from `BaseArtifactGenerator`. -/
def BatchGenerator : IArtifactGenerator :=
  { generate := BatchGenerator.generate
    get_file_extension := "bat"
    get_mime_type := "text/plain"
    supports_settings := BaseArtifactGenerator.supports_settings }

/-- An XML element tree as built by `xml.etree.ElementTree` in the GPO
generator: elements with attributes (in insertion order) and children,
plus text nodes. -/
inductive XmlNode where
  | elem : String → List (String × String) → List XmlNode → XmlNode
  | text : String → XmlNode

/-- Character-level model of the escaping `minidom` applies to text and
attribute data on output (`&`, `<`, `"`, `>` in that replacement order;
single-character patterns make the sequential replaces equal to this
character map). -/
def pyXmlEscapeChar (c : Char) : String :=
  if c = '&' then "&amp;"
  else if c = '<' then "&lt;"
  else if c = '\x22' then "&quot;"
  else if c = '>' then "&gt;"
  else String.singleton c

/-- Escape a whole string for XML output. -/
def pyXmlEscape (s : String) : String :=
  String.join (s.data.map pyXmlEscapeChar)

/-- Attribute rendering of `minidom.Element.writexml`: a leading space,
`name="escaped value"`, in document (insertion) order. -/
def xmlAttrs (attrs : List (String × String)) : String :=
  attrs.foldl (fun acc p => acc ++ " " ++ p.1 ++ "=\x22" ++ pyXmlEscape p.2 ++ "\x22") ""

mutual

/-- `minidom` pretty-printing (`toprettyxml(indent="  ")`) of one node:
childless elements self-close, an element whose only child is text is
written inline, otherwise children are written each on its own line with
two more spaces of indentation. -/
def XmlNode.writexml : XmlNode → String → String
  | .text s, indent => indent ++ pyXmlEscape s ++ "\n"
  | .elem tag attrs children, indent =>
    let head := indent ++ "<" ++ tag ++ xmlAttrs attrs
    match children with
    | [] => head ++ "/>\n"
    | [.text s] => head ++ ">" ++ pyXmlEscape s ++ "</" ++ tag ++ ">\n"
    | cs => head ++ ">\n" ++ XmlNode.writexmlList cs (indent ++ "  ") ++
        indent ++ "</" ++ tag ++ ">\n"

/-- Pretty-print a child list in order. -/
def XmlNode.writexmlList : List XmlNode → String → String
  | [], _ => ""
  | c :: rest, indent => c.writexml indent ++ XmlNode.writexmlList rest indent

end

/-- `ET.SubElement(parent, tag).text = s`: ElementTree omits falsy text,
so an empty string yields a childless (self-closing) element. -/
def textElem (tag : String) (s : String) : XmlNode :=
  XmlNode.elem tag [] (if s = "" then [] else [XmlNode.text s])

/-- `GPOXMLGenerator._add_file_association_config`: a `Registry` element
holding one `Policy` element per association, attributes in `set` order. -/
def GPOXMLGenerator.file_association_config
    (file_associations : List (String × Value)) : XmlNode :=
  XmlNode.elem "Registry" []
    (file_associations.map (fun p =>
      XmlNode.elem "Policy"
        [("State", "Enabled"),
         ("Key", "HKEY_CLASSES_ROOT\\" ++ p.1),
         ("ValueName", ""),
         ("Value", p.2.pyStr)] []))

/-- `GPOXMLGenerator._add_firewall_config`: a `WindowsDefenderFirewall`
element holding one `InboundRule` element per rule. -/
def GPOXMLGenerator.firewall_config (firewall_rules : List Value) : XmlNode :=
  XmlNode.elem "WindowsDefenderFirewall" []
    (firewall_rules.map (fun rule =>
      XmlNode.elem "InboundRule"
        [("Action", "Block"),
         ("Program", rule.field "program"),
         ("Name", rule.field "name")] []))

/-- `GPOXMLGenerator.generate`: build the GPO element tree and return its
`minidom` pretty-printed serialization (XML declaration, two-space
indent, trailing newline). -/
def GPOXMLGenerator.generate (control_name : String) (settings : Settings)
    (t : Timestamp) : String :=
  let identifier := textElem "Identifier"
    ("\x7b12345678-1234-5678-9012-" ++ t.ymd_hm ++ "\x7d")
  let domain := textElem "Domain" "example.com"
  let name := textElem "Name" control_name
  let extension_children : List XmlNode :=
    (if dictContains settings "file_associations" then
      [GPOXMLGenerator.file_association_config
        (dictGetD settings "file_associations" (.dict [])).items]
    else []) ++
    (if dictContains settings "firewall_rules" then
      [GPOXMLGenerator.firewall_config
        (dictGetD settings "firewall_rules" (.list [])).asList]
    else [])
  let computer := XmlNode.elem "Computer" []
    [textElem "Enabled" "true", XmlNode.elem "ExtensionData" [] extension_children]
  let root := XmlNode.elem "GroupPolicyObject" [] [identifier, domain, name, computer]
  "<?xml version=\x221.0\x22 ?>\n" ++ root.writexml ""

/-- `GPOXMLGenerator.supports_settings`. -/
def GPOXMLGenerator.supports_settings (settings : Settings) : Bool :=
  dictContains settings "file_associations" || dictContains settings "firewall_rules"

/-- The `GPOXMLGenerator()` instance registered by the app factory. -/
def GPOXMLGenerator : IArtifactGenerator :=
  { generate := GPOXMLGenerator.generate
    get_file_extension := "xml"
    get_mime_type := "text/xml"
    supports_settings := GPOXMLGenerator.supports_settings }

/-- `AppFactory.create_generator_registry` from app_factory.py: the
composition root's generator registry, four generators in registration
order `gpo`, `powershell`, `registry`, `batch`. -/
def AppFactory.create_generator_registry : GeneratorRegistry :=
  ((((GeneratorRegistry.mk []).register_generator "gpo" GPOXMLGenerator
    ).register_generator "powershell" PowerShellGenerator
    ).register_generator "registry" RegistryGenerator
    ).register_generator "batch" BatchGenerator

/-- `ArtifactService` from services/artifact_service.py. -/
structure ArtifactService where
  generator_registry : GeneratorRegistry

/-- `ArtifactService.generate_all_artifacts`: query the compatible
generators, then fill the `artifacts` dict with each generator's output,
keyed by the generator's registry name. -/
def ArtifactService.generate_all_artifacts (svc : ArtifactService)
    (control_name : String) (settings : Settings) (t : Timestamp) :
    List (String × String) :=
  let compatible_generators :=
    svc.generator_registry.get_compatible_generators settings
  compatible_generators.foldl
    (fun artifacts p => dictSet artifacts p.1 (p.2.generate control_name settings t))
    []

/-- `ArtifactService._generate_readme`. -/
def ArtifactService.generate_readme (control_name : String) (t : Timestamp) :
    String :=
  "Windows Security Control Package\n" ++
  "=================================\n" ++
  "\n" ++
  "Control Name: " ++ control_name ++ "\n" ++
  "Generated: " ++ t.ymd_hms ++ "\n" ++
  "\n" ++
  "Files Included:\n" ++
  "- " ++ control_name ++ "_GPO.xml: Group Policy Object export\n" ++
  "- " ++ control_name ++ "_Script.ps1: PowerShell implementation script\n" ++
  "- " ++ control_name ++ "_Registry.reg: Registry file for manual import\n" ++
  "- " ++ control_name ++ "_Deploy.bat: Batch script for deployment\n" ++
  "\n" ++
  "IMPORTANT: Always test these configurations in a non-production environment first!\n" ++
  "\n" ++
  "Implementation Notes:\n" ++
  "1. Run scripts with Administrator privileges\n" ++
  "2. Backup your system before applying changes\n" ++
  "3. Test thoroughly before deploying to production\n" ++
  "4. Consider the impact on user workflows\n"

/-- The filename chosen for one artifact entry inside the ZIP (the
default-then-override chain of `create_download_package`). -/
def ArtifactService.artifact_filename (control_name : String)
    (artifact_type : String) (generator : IArtifactGenerator) : String :=
  if artifact_type = "gpo" then control_name ++ "_GPO.xml"
  else if artifact_type = "powershell" then control_name ++ "_Script.ps1"
  else if artifact_type = "registry" then control_name ++ "_Registry.reg"
  else if artifact_type = "batch" then control_name ++ "_Deploy.bat"
  else control_name ++ "." ++ generator.get_file_extension

/-- `ArtifactService.create_download_package`: the ZIP archive modelled as
its member list in write order.  Each artifact entry whose type resolves
to a registered generator contributes one member (the `if generator:`
guard skips unresolvable types), then the README is appended. -/
def ArtifactService.create_download_package (svc : ArtifactService)
    (control_name : String) (artifacts : List (String × String)) (t : Timestamp) :
    List (String × String) :=
  let files := artifacts.foldl
    (fun acc p =>
      match svc.generator_registry.get_generator p.1 with
      | some generator =>
          acc ++ [(ArtifactService.artifact_filename control_name p.1 generator, p.2)]
      | none => acc)
    []
  files ++ [("README.txt", ArtifactService.generate_readme control_name t)]

/-- The extension table of `FileAssociationControl`: extension,
description, default application. -/
def FileAssociationControl.DANGEROUS_EXTENSIONS : List (String × String × String) := [
  (".scr", "Screen saver files (often malicious)", "notepad.exe"),
  (".cab", "Cabinet files", "notepad.exe"),
  (".appx", "AppX package files", "notepad.exe"),
  (".ps1", "PowerShell script files", "notepad.exe"),
  (".bat", "Batch files", "notepad.exe"),
  (".cmd", "Command files", "notepad.exe"),
  (".vbs", "VBScript files", "notepad.exe"),
  (".vbe", "VBScript Encoded Script files", "notepad.exe"),
  (".hta", "HTML Application files", "notepad.exe"),
  (".shs", "Shell Scrap Object files", "notepad.exe"),
  (".shb", "Shell Scrap files", "notepad.exe"),
  (".js", "JavaScript files", "notepad.exe"),
  (".jse", "JScript Encoded Script files", "notepad.exe"),
  (".jar", "Java Archive files", "notepad.exe"),
  (".wsh", "Windows Script Host files", "notepad.exe"),
  (".wsc", "Windows Script Component files", "notepad.exe"),
  (".wsf", "Windows Script Files", "notepad.exe"),
  (".sct", "Windows Scriptlet files", "notepad.exe"),
  (".chm", "Compiled HTML Help files", "notepad.exe"),
  (".iso", "ISO image files", "notepad.exe")]

/-- `FileAssociationControl.validate_settings`: requires a
`file_associations` dict whose keys start with `.` and whose values are
non-blank strings.  (Keys of the modelled dicts are strings by
construction, matching the `isinstance(ext, str)` check.) -/
def FileAssociationControl.validate_settings (settings : Settings) : Bool :=
  if !(dictContains settings "file_associations") then false
  else
    match dictLookup settings "file_associations" with
    | some (.dict l) =>
        l.all (fun p =>
          p.1.startsWith "." &&
          (match p.2 with
           | .str a => a.trim != ""
           | _ => false))
    | _ => false

/-- The `FileAssociationControl` class: constructing it yields the fixed
metadata (name "File Association Security") and empty settings. -/
def FileAssociationControl : ControlClass :=
  { new :=
    { metadata :=
      { name := "File Association Security"
        description := "Prevent execution of malicious files by changing default applications for commonly abused extensions"
        risk_level := RiskLevel.low
        purpose := "Prevent execution of malicious files by changing default applications for commonly abused extensions"
        common_targets := some
          (FileAssociationControl.DANGEROUS_EXTENSIONS.map (fun p => p.1))
        category := some "File System Security" }
      validate_settings := FileAssociationControl.validate_settings
      _settings := [] } }

/-- A heap of Python dictionaries of one value type: a bump allocator
(`nextRef`) and the contents stored at each reference.  References model
Python object identity, which is what distinguishes returning
`self._controls` from returning `self._controls.copy()`. -/
structure Heap (α : Type) where
  nextRef : Nat
  store : Nat → List (String × α)

/-- Allocate a fresh dictionary holding `d` and return its reference. -/
def Heap.alloc {α : Type} (h : Heap α) (d : List (String × α)) : Nat × Heap α :=
  (h.nextRef,
   { nextRef := h.nextRef + 1
     store := fun r => if r = h.nextRef then d else h.store r })

/-- In-place mutation of the dictionary behind reference `r` (any
combination of adds, removals and replacements, as a function on its
contents). -/
def Heap.write {α : Type} (h : Heap α) (r : Nat) (f : List (String × α) → List (String × α)) :
    Heap α :=
  { nextRef := h.nextRef
    store := fun q => if q = r then f (h.store q) else h.store q }

/-- Heap-level `ControlRegistry.get_available_controls`: the registry's
`_controls` dict lives behind reference `reg`; the method returns
`self._controls.copy()`, i.e. a freshly allocated dict with the same
contents. -/
def Heap.get_available_controls (h : Heap ControlClass) (reg : Nat) :
    Nat × Heap ControlClass :=
  h.alloc (h.store reg)

/-- Heap-level `ControlRegistry.create_control` (reads through the
registry's reference). -/
def Heap.create_control (h : Heap ControlClass) (reg : Nat) (control_name : String) :
    Except String BaseSecurityControl :=
  match dictLookup (h.store reg) control_name with
  | none => .error ("Control \x27" ++ control_name ++ "\x27 not found in registry")
  | some c => .ok c.new

/-- Heap-level `GeneratorRegistry.get_all_generators` (returns
`self._generators.copy()`). -/
def Heap.get_all_generators (h : Heap IArtifactGenerator) (reg : Nat) :
    Nat × Heap IArtifactGenerator :=
  h.alloc (h.store reg)

/-- Heap-level `GeneratorRegistry.get_generator`. -/
def Heap.get_generator (h : Heap IArtifactGenerator) (reg : Nat) (name : String) :
    Option IArtifactGenerator :=
  dictLookup (h.store reg) name

/-- Heap-level `GeneratorRegistry.get_compatible_generators`. -/
def Heap.get_compatible_generators (h : Heap IArtifactGenerator) (reg : Nat)
    (settings : Settings) : List (String × IArtifactGenerator) :=
  (h.store reg).foldl
    (fun compatible p =>
      if p.2.supports_settings settings then compatible ++ [p] else compatible)
    []

theorem pyJoin_cons_of_ne (sep a : String) (l : List String) (h : l ≠ []) :
    pyJoin sep (a :: l) = a ++ sep ++ pyJoin sep l := by
  cases l with
  | nil => exact absurd rfl h
  | cons b rest => rfl

theorem pyJoin_append (sep : String) (xs l : List String) (hxs : xs ≠ [])
    (hl : l ≠ []) :
    pyJoin sep (xs ++ l) = pyJoin sep xs ++ sep ++ pyJoin sep l := by
  induction xs with
  | nil => exact absurd rfl hxs
  | cons a xs ih =>
    cases xs with
    | nil =>
      simpa [pyJoin] using pyJoin_cons_of_ne sep a l hl
    | cons b rest =>
      have h1 : (b :: rest) ++ l ≠ [] := by simp
      rw [List.cons_append, pyJoin_cons_of_ne sep a _ h1, ih (by simp),
        pyJoin_cons_of_ne sep a (b :: rest) (by simp)]
      simp [String.append_assoc]

theorem foldl_append_dist {α β : Type} (g : β → List α) (l : List β)
    (init : List α) :
    l.foldl (fun a x => a ++ g x) init = init ++ l.foldl (fun a x => a ++ g x) [] := by
  induction l generalizing init with
  | nil => simp
  | cons x xs ih =>
    simp only [List.foldl_cons, List.nil_append]
    rw [ih (init ++ g x), ih (g x)]
    simp

theorem foldl_filter_dist {α : Type} (q : α → Bool) (l : List α) (init : List α) :
    l.foldl (fun acc p => if q p then acc ++ [p] else acc) init =
      init ++ l.filter q := by
  induction l generalizing init with
  | nil => simp
  | cons x xs ih =>
    simp only [List.foldl_cons, List.filter_cons]
    by_cases h : q x
    · simp only [h, if_pos]
      rw [ih]
      simp
    · simp only [h]
      rw [ih]
      simp

theorem get_compatible_generators_eq_filter (r : GeneratorRegistry) (s : Settings) :
    r.get_compatible_generators s =
      r._generators.filter (fun p => p.2.supports_settings s) := by
  unfold GeneratorRegistry.get_compatible_generators
  rw [foldl_filter_dist]
  simp

theorem dictLookup_dictSet_self {α : Type} (l : List (String × α)) (k : String)
    (v : α) : dictLookup (dictSet l k v) k = some v := by
  induction l with
  | nil => simp [dictSet, dictLookup]
  | cons p rest ih =>
    by_cases h : p.1 = k
    · simp [dictSet, h, dictLookup]
    · simp [dictSet, h, dictLookup, ih]

theorem dictSet_eq_append {α : Type} (l : List (String × α)) (k : String) (v : α)
    (h : ∀ p ∈ l, p.1 ≠ k) : dictSet l k v = l ++ [(k, v)] := by
  induction l with
  | nil => rfl
  | cons p rest ih =>
    have hp : p.1 ≠ k := h p (by simp)
    simp only [dictSet]
    rw [if_neg hp, ih (fun q hq => h q (by simp [hq])), List.cons_append]

theorem foldl_dictSet_eq_append {G V : Type} (F : String × G → V) :
    ∀ (l : List (String × G)) (acc : List (String × V)),
    (l.map Prod.fst).Nodup →
    (∀ q ∈ acc, ∀ p ∈ l, q.1 ≠ p.1) →
    l.foldl (fun a p => dictSet a p.1 (F p)) acc =
      acc ++ l.map (fun p => (p.1, F p)) := by
  intro l
  induction l with
  | nil => intro acc _ _; simp
  | cons p rest ih =>
    intro acc hnd hdisj
    simp only [List.foldl_cons]
    have hset : dictSet acc p.1 (F p) = acc ++ [(p.1, F p)] :=
      dictSet_eq_append _ _ _ (fun q hq => hdisj q hq p (by simp))
    have hnd' : (rest.map Prod.fst).Nodup := (List.nodup_cons.mp (by simpa using hnd)).2
    have hhead : p.1 ∉ rest.map Prod.fst := (List.nodup_cons.mp (by simpa using hnd)).1
    rw [hset, ih (acc ++ [(p.1, F p)]) hnd' ?_]
    · simp
    · intro q hq r hr
      rcases List.mem_append.mp hq with h | h
      · exact hdisj q h r (by simp [hr])
      · have hq1 : q.1 = p.1 := by
          simp at h
          rw [h]
        rw [hq1]
        intro hcontra
        exact hhead (hcontra ▸ List.mem_map_of_mem Prod.fst hr)

theorem generate_all_eq_map (svc : ArtifactService) (control_name : String)
    (settings : Settings) (t : Timestamp)
    (hnd : ((svc.generator_registry)._generators.map Prod.fst).Nodup) :
    svc.generate_all_artifacts control_name settings t =
      (svc.generator_registry.get_compatible_generators settings).map
        (fun p => (p.1, p.2.generate control_name settings t)) := by
  unfold ArtifactService.generate_all_artifacts
  have hsub : List.Sublist
      ((svc.generator_registry.get_compatible_generators settings).map Prod.fst)
      ((svc.generator_registry)._generators.map Prod.fst) := by
    rw [get_compatible_generators_eq_filter]
    exact (List.filter_sublist _).map Prod.fst
  have hnd' := hnd.sublist hsub
  simpa using foldl_dictSet_eq_append _ _ [] hnd' (by simp)

theorem foldl_str_append (l : List String) (init : String) :
    l.foldl (fun r s => r ++ s) init = init ++ l.foldl (fun r s => r ++ s) "" := by
  induction l generalizing init with
  | nil => simp
  | cons x xs ih =>
    simp only [List.foldl_cons]
    rw [ih (init ++ x), ih ("" ++ x)]
    simp [String.append_assoc]

theorem join_append_str (l1 l2 : List String) :
    String.join (l1 ++ l2) = String.join l1 ++ String.join l2 := by
  unfold String.join
  rw [List.foldl_append, foldl_str_append]

theorem pyXmlEscape_append (a b : String) :
    pyXmlEscape (a ++ b) = pyXmlEscape a ++ pyXmlEscape b := by
  unfold pyXmlEscape
  rw [String.data_append, List.map_append, join_append_str]

theorem str_append_ne_empty (a b : String) (h : a.data ≠ []) : a ++ b ≠ "" := by
  intro hab
  have hd : a.data ++ b.data = [] := by rw [← String.data_append, hab]
  exact h (List.append_eq_nil.mp hd).1

/-- The lines of a registry artifact after the `; Generated:` line. -/
def regTail (settings : Settings) : List String :=
  "" :: (if dictContains settings "file_associations" then
    ["; File Association Changes",
     "; Using HKLM\\SOFTWARE\\Classes instead of HKCR to avoid dynamic generation issues"] ++
    (dictGetD settings "file_associations" (.dict [])).items.foldl
      (fun acc p =>
        acc ++
          ["[HKEY_LOCAL_MACHINE\\SOFTWARE\\Classes\\" ++ p.1 ++ "]",
           "@=\x22" ++ p.2.pyStr ++ "File\x22",
           "",
           "[HKEY_LOCAL_MACHINE\\SOFTWARE\\Classes\\" ++ p.2.pyStr ++
             "File\\shell\\open\\command]",
           "@=\x22" ++ p.2.pyStr ++ " \\\x22%1\\\x22\x22",
           ""]) []
  else [])

theorem regGenerate_eq (n : String) (s : Settings) (t : Timestamp) :
    RegistryGenerator.generate n s t =
      pyJoin "\n" (["Windows Registry Editor Version 5.00", "",
        "; Windows Security Control: " ++ n, "; Generated: " ++ t.ymd_hms] ++
        regTail s) := by
  unfold RegistryGenerator.generate regTail
  by_cases h : dictContains s "file_associations"
  · simp only [h, if_pos]
    rw [foldl_append_dist]
    congr 1
  · simp [h]

theorem regGenerate_split (n : String) (s : Settings) (t : Timestamp) :
    RegistryGenerator.generate n s t =
      ("Windows Registry Editor Version 5.00" ++ "\n" ++ "" ++ "\n" ++
        ("; Windows Security Control: " ++ n) ++ "\n" ++ "; Generated: ") ++
      t.ymd_hms ++ ("\n" ++ pyJoin "\n" (regTail s)) := by
  rw [regGenerate_eq, pyJoin_append "\n" _ _ (by simp) (by simp [regTail])]
  apply String.ext
  simp [pyJoin, String.data_append, List.append_assoc]

theorem if_append {α : Type} (c : Prop) [Decidable c] (X a : List α) :
    (if c then X ++ a else X) = X ++ (if c then a else []) := by
  by_cases h : c <;> simp [h]

theorem foldl_append_dist2 {α β : Type} (g : β → List α) (l : List β)
    (A B : List α) :
    l.foldl (fun a x => a ++ g x) (A ++ B) =
      A ++ l.foldl (fun a x => a ++ g x) B := by
  rw [foldl_append_dist, foldl_append_dist g l B, List.append_assoc]

/-- The lines of a PowerShell artifact after the `# Generated:` line. -/
def psTail (settings : Settings) : List String :=
  ["",
   "# Requires Administrator privileges",
   "if (-NOT ([Security.Principal.WindowsPrincipal] [Security.Principal.WindowsIdentity]::GetCurrent()).IsInRole([Security.Principal.WindowsBuiltInRole] \x27Administrator\x27)) \x7b",
   "    Write-Error \x27This script requires Administrator privileges\x27",
   "    exit 1",
   "\x7d",
   "",
   "Write-Host \x27Implementing security control...\x27 -ForegroundColor Green",
   ""] ++
  ((if dictContains settings "file_associations" then
      PowerShellGenerator.file_association_script
        (dictGetD settings "file_associations" (.dict [])).items
    else []) ++
   ((if dictContains settings "firewall_rules" then
       PowerShellGenerator.firewall_script
         (dictGetD settings "firewall_rules" (.list [])).asList
     else []) ++
    ((if dictContains settings "winx_removal" then
        PowerShellGenerator.winx_script
          (dictGetD settings "winx_removal" (.list [])).asList
      else []) ++
     ["Write-Host \x27Security control implementation completed!\x27 -ForegroundColor Green",
      "Write-Host \x27Please reboot the system to ensure all changes take effect.\x27 -ForegroundColor Cyan"])))

theorem psGenerate_eq (n : String) (s : Settings) (t : Timestamp) :
    PowerShellGenerator.generate n s t =
      pyJoin "\n" (["# Windows Security Control Implementation Script",
        "# Control: " ++ n, "# Generated: " ++ t.ymd_hms] ++ psTail s) := by
  unfold PowerShellGenerator.generate psTail
  simp only [if_append]
  simp only [List.append_assoc, List.cons_append, List.nil_append]

theorem psGenerate_split (n : String) (s : Settings) (t : Timestamp) :
    PowerShellGenerator.generate n s t =
      ("# Windows Security Control Implementation Script" ++ "\n" ++
        ("# Control: " ++ n) ++ "\n" ++ "# Generated: ") ++
      t.ymd_hms ++ ("\n" ++ pyJoin "\n" (psTail s)) := by
  rw [psGenerate_eq, pyJoin_append "\n" _ _ (by simp) (by simp [psTail])]
  apply String.ext
  simp only [pyJoin, String.data_append, List.append_assoc]

/-- The lines of a batch artifact after the `REM Generated:` line. -/
def batchTail (settings : Settings) : List String :=
  let batch_lines : List String := [
    "",
    "REM Check for administrator privileges",
    "net session >nul 2>&1",
    "if %errorLevel% neq 0 (",
    "    echo This script requires Administrator privileges",
    "    pause",
    "    exit /b 1",
    ")",
    "",
    "echo Implementing security control...",
    ""]
  let batch_lines :=
    if dictContains settings "file_associations" then
      ((dictGetD settings "file_associations" (.dict [])).items.foldl
        (fun acc p =>
          acc ++
            ["assoc " ++ p.1 ++ "=" ++ p.2.pyStr ++ "File",
             "ftype " ++ p.2.pyStr ++ "File=\x22" ++ p.2.pyStr ++ "\x22 \x22%%1\x22"])
        (batch_lines ++ ["REM File Association Changes"])) ++ [""]
    else batch_lines
  let batch_lines :=
    if dictContains settings "firewall_rules" then
      ((dictGetD settings "firewall_rules" (.list [])).asList.foldl
        (fun acc rule =>
          acc ++
            ["netsh advfirewall firewall add rule name=\x22" ++ rule.field "name" ++
             "\x22 dir=out action=block program=\x22" ++ rule.field "program" ++ "\x22"])
        (batch_lines ++ ["REM Windows Firewall Rules"])) ++ [""]
    else batch_lines
  let batch_lines :=
    if dictContains settings "winx_removal" then
      let winx := (dictGetD settings "winx_removal" (.list [])).asList
      let batch_lines := batch_lines ++ [
        "REM WinX Menu Modification - Apply to all users and default profile",
        "echo Modifying WinX menu for all users...",
        "",
        "REM Process each user profile",
        "for /D %%U in (C:\\Users\\*) do (",
        "    if exist \x22%%U\\AppData\\Local\\Microsoft\\Windows\\WinX\x22 (",
        "        echo Processing: %%~nxU"]
      let batch_lines := winx.foldl
        (fun acc item =>
          acc ++
            ["        del /F /S /Q \x22%%U\\AppData\\Local\\Microsoft\\Windows\\WinX\\*" ++
             item.pyStr ++ "*\x22 2>nul"])
        batch_lines
      let batch_lines := batch_lines ++ [
        "    )",
        ")",
        "",
        "REM Modify default user profile for new users",
        "if exist \x22C:\\Users\\Default\\AppData\\Local\\Microsoft\\Windows\\WinX\x22 (",
        "    echo Processing: Default User Profile"]
      let batch_lines := winx.foldl
        (fun acc item =>
          acc ++
            ["    del /F /S /Q \x22C:\\Users\\Default\\AppData\\Local\\Microsoft\\Windows\\WinX\\*" ++
             item.pyStr ++ "*\x22 2>nul"])
        batch_lines
      batch_lines ++ [
        ")",
        "",
        "REM Restart Explorer to apply changes",
        "taskkill /F /IM explorer.exe >nul 2>&1",
        "start explorer.exe",
        ""]
    else batch_lines
  let batch_lines :=
    if dictContains settings "disable_all_hotkeys" || dictContains settings "disabled_hotkeys" then
      let batch_lines := batch_lines ++ [
        "REM Windows Hotkey Control",
        "echo Configuring Windows hotkey restrictions...",
        ""]
      let batch_lines :=
        if (dictGetD settings "disable_all_hotkeys" (.bool false)).truthy then
          batch_lines ++ [
            "REM Disable ALL Windows hotkeys (system-wide)",
            "echo   Disabling all Windows hotkeys (system-wide)...",
            "reg add \x22HKLM\\Software\\Microsoft\\Windows\\CurrentVersion\\Policies\\Explorer\x22 /v NoWinKeys /t REG_DWORD /d 1 /f",
            ""]
        else batch_lines
      let dh := dictLookup settings "disabled_hotkeys"
      let batch_lines :=
        if (dh.getD (.str "")).truthy && (dh.getD (.str "")).asList.length > 0 then
          let hotkeys_string :=
            ((dh.getD (.str "")).asList.map Value.pyStr).foldl (· ++ ·) ""
          batch_lines ++ [
            "REM Disable specific Windows hotkeys: " ++ hotkeys_string,
            "echo   Disabling specific hotkeys: " ++ hotkeys_string,
            "",
            "REM Process each user profile",
            "for /D %%U in (C:\\Users\\*) do (",
            "    if exist \x22%%U\\NTUSER.DAT\x22 (",
            "        echo     Processing: %%~nxU",
            "        REM Load user hive",
            "        reg load \x22HKU\\TempUser_%%~nxU\x22 \x22%%U\\NTUSER.DAT\x22 2>nul",
            "        reg add \x22HKU\\TempUser_%%~nxU\\Software\\Microsoft\\Windows\\CurrentVersion\\Explorer\\Advanced\x22 /v DisabledHotkeys /t REG_SZ /d \x22" ++
              hotkeys_string ++ "\x22 /f 2>nul",
            "        reg unload \x22HKU\\TempUser_%%~nxU\x22 2>nul",
            "    )",
            ")",
            "",
            "REM Apply to default user profile for new users",
            "reg load \x22HKU\\DefaultUser\x22 \x22C:\\Users\\Default\\NTUSER.DAT\x22 2>nul",
            "reg add \x22HKU\\DefaultUser\\Software\\Microsoft\\Windows\\CurrentVersion\\Explorer\\Advanced\x22 /v DisabledHotkeys /t REG_SZ /d \x22" ++
              hotkeys_string ++ "\x22 /f 2>nul",
            "reg unload \x22HKU\\DefaultUser\x22 2>nul",
            ""]
        else batch_lines
      batch_lines
    else batch_lines
  batch_lines ++ [
    "echo Security control implementation completed!",
    "echo Please reboot the system to ensure all changes take effect.",
    "pause"]

set_option maxHeartbeats 1000000 in
theorem batchGenerate_eq (n : String) (s : Settings) (t : Timestamp) :
    BatchGenerator.generate n s t =
      pyJoin "\n" (["@echo off", "REM Windows Security Control: " ++ n,
        "REM Generated: " ++ t.ymd_hms] ++ batchTail s) := by
  unfold BatchGenerator.generate batchTail
  by_cases h1 : dictContains s "file_associations" = true <;>
  by_cases h2 : dictContains s "firewall_rules" = true <;>
  by_cases h3 : dictContains s "winx_removal" = true <;>
  by_cases h4 : (dictContains s "disable_all_hotkeys" || dictContains s "disabled_hotkeys") = true <;>
  by_cases h6 : (dictGetD s "disable_all_hotkeys" (Value.bool false)).truthy = true <;>
  by_cases h7 : (((dictLookup s "disabled_hotkeys").getD (Value.str "")).truthy &&
      decide (((dictLookup s "disabled_hotkeys").getD (Value.str "")).asList.length > 0)) = true <;>
    (simp only [h1, h2, h3, h4, h6, h7, eq_self_iff_true, if_true, if_false,
      Bool.false_eq_true];
     try simp only [foldl_append_dist2];
     simp only [List.append_assoc, List.cons_append, List.nil_append])

theorem batchGenerate_split (n : String) (s : Settings) (t : Timestamp) :
    BatchGenerator.generate n s t =
      ("@echo off" ++ "\n" ++ ("REM Windows Security Control: " ++ n) ++ "\n" ++
        "REM Generated: ") ++
      t.ymd_hms ++ ("\n" ++ pyJoin "\n" (batchTail s)) := by
  rw [batchGenerate_eq, pyJoin_append "\n" _ _ (by simp) (by simp [batchTail])]
  apply String.ext
  simp only [pyJoin, String.data_append, List.append_assoc]

/-- The `ExtensionData` element of a GPO artifact (the settings-dependent
part of the tree). -/
def gpoExtensionData (settings : Settings) : XmlNode :=
  XmlNode.elem "ExtensionData" []
    ((if dictContains settings "file_associations" then
      [GPOXMLGenerator.file_association_config
        (dictGetD settings "file_associations" (.dict [])).items]
    else []) ++
    (if dictContains settings "firewall_rules" then
      [GPOXMLGenerator.firewall_config
        (dictGetD settings "firewall_rules" (.list [])).asList]
    else []))

/-- The GPO artifact text up to (and excluding) the escaped timestamp in
the `Identifier` element. -/
def gpoPre : String :=
  "<?xml version=\x221.0\x22 ?>\n" ++ "" ++ "<" ++ "GroupPolicyObject" ++
    xmlAttrs [] ++ ">\n" ++ "" ++ "  " ++ "<" ++ "Identifier" ++ xmlAttrs [] ++
    ">" ++ pyXmlEscape "\x7b12345678-1234-5678-9012-"

/-- The GPO artifact text after the escaped timestamp. -/
def gpoSuffix (n : String) (s : Settings) : String :=
  pyXmlEscape "\x7d" ++ "</" ++ "Identifier" ++ ">\n" ++
  XmlNode.writexmlList [textElem "Domain" "example.com", textElem "Name" n,
    XmlNode.elem "Computer" [] [textElem "Enabled" "true", gpoExtensionData s]]
    ("" ++ "  ") ++
  "" ++ "</" ++ "GroupPolicyObject" ++ ">\n"

theorem writexml_elem_multi (tag : String) (attrs : List (String × String))
    (c1 c2 : XmlNode) (cs : List XmlNode) (indent : String) :
    XmlNode.writexml (.elem tag attrs (c1 :: c2 :: cs)) indent =
      indent ++ "<" ++ tag ++ xmlAttrs attrs ++ ">\n" ++
      XmlNode.writexmlList (c1 :: c2 :: cs) (indent ++ "  ") ++
      indent ++ "</" ++ tag ++ ">\n" := by
  cases c1 <;> simp only [XmlNode.writexml]

theorem writexml_text_child (tag : String) (attrs : List (String × String))
    (s : String) (indent : String) :
    XmlNode.writexml (.elem tag attrs [.text s]) indent =
      indent ++ "<" ++ tag ++ xmlAttrs attrs ++ ">" ++ pyXmlEscape s ++
      "</" ++ tag ++ ">\n" := by
  simp only [XmlNode.writexml]

theorem writexml_list_cons (c : XmlNode) (rest : List XmlNode) (indent : String) :
    XmlNode.writexmlList (c :: rest) indent =
      c.writexml indent ++ XmlNode.writexmlList rest indent := by
  simp only [XmlNode.writexmlList]

theorem gpoGenerate_split (n : String) (s : Settings) (t : Timestamp) :
    GPOXMLGenerator.generate n s t =
      gpoPre ++ pyXmlEscape t.ymd_hm ++ gpoSuffix n s := by
  have hne : ("\x7b12345678-1234-5678-9012-" ++ t.ymd_hm ++ "\x7d") ≠ "" := by
    apply str_append_ne_empty
    rw [String.data_append]
    intro hc
    exact absurd (List.append_eq_nil.mp hc).1 (by decide)
  have hid : textElem "Identifier" ("\x7b12345678-1234-5678-9012-" ++ t.ymd_hm ++ "\x7d") =
      XmlNode.elem "Identifier" []
        [XmlNode.text ("\x7b12345678-1234-5678-9012-" ++ t.ymd_hm ++ "\x7d")] := by
    simp only [textElem, if_neg hne]
  simp only [GPOXMLGenerator.generate, gpoPre, gpoSuffix, gpoExtensionData]
  rw [hid, writexml_elem_multi, writexml_list_cons, writexml_text_child,
    pyXmlEscape_append, pyXmlEscape_append]
  refine String.ext ?_
  simp only [String.data_append, List.append_assoc]

/-- A fixed sample `datetime.now()` instant for concrete evaluations. -/
def t0 : Timestamp := { ymd_hms := "2026-01-01 00:00:00", ymd_hm := "202601010000" }

/-- The settings of the spec's file-association scenario. -/
def faSettings : Settings :=
  [("file_associations", Value.dict [(".scr", Value.str "notepad.exe")])]

/-- The artifact service wired by the composition root
(`AppFactory.create_artifact_service(AppFactory.create_generator_registry())`). -/
def appService : ArtifactService := { generator_registry := AppFactory.create_generator_registry }

/-- C1: `get_compatible_generators` returns exactly the registered pairs
whose generator supports the settings — no extras, no omissions, no
duplicates — in registration insertion order, and an unmatched settings
mapping yields an empty mapping rather than an error. -/
theorem claim_C1_get_compatible_generators (r : GeneratorRegistry) (s : Settings) :
    r.get_compatible_generators s =
      r._generators.filter (fun p => p.2.supports_settings s) ∧
    (∀ nm g, (nm, g) ∈ r.get_compatible_generators s ↔
      (nm, g) ∈ r._generators ∧ g.supports_settings s = true) ∧
    List.Sublist (r.get_compatible_generators s) r._generators ∧
    ((∀ p ∈ r._generators, p.2.supports_settings s = false) →
      r.get_compatible_generators s = []) := by
  refine ⟨get_compatible_generators_eq_filter r s, ?_, ?_, ?_⟩
  · intro nm g
    rw [get_compatible_generators_eq_filter]
    simp [List.mem_filter]
  · rw [get_compatible_generators_eq_filter]
    exact List.filter_sublist _
  · intro h
    rw [get_compatible_generators_eq_filter]
    rw [List.filter_eq_nil_iff]
    intro p hp
    simp [h p hp]

/-- C2: assigning settings succeeds and replaces the stored value exactly
when `validate_settings` accepts it; a rejected assignment raises
`Invalid settings for <name>` and leaves the stored settings unchanged. -/
theorem claim_C2_settings_setter (c : BaseSecurityControl) (v : Settings) :
    ((c.settings_set v).1 = none ↔ c.validate_settings v = true) ∧
    (c.validate_settings v = true →
      (c.settings_set v).2._settings = v ∧ (c.settings_set v).1 = none) ∧
    (c.validate_settings v = false →
      (c.settings_set v).2 = c ∧
      (c.settings_set v).1 = some ("Invalid settings for " ++ c.metadata.name)) := by
  unfold BaseSecurityControl.settings_set
  by_cases h : c.validate_settings v <;> simp [h]

/-- C7: `create_control` on an unregistered name raises the not-found
`ValueError` (never a default); on a registered name it returns the
instance built by the stored class.  `get_ui_renderer` returns `None`
without raising when no renderer is registered, else a fresh instance of
the stored renderer class. -/
theorem claim_C7_lookup_outcomes (r : ControlRegistry) (name : String) :
    (dictLookup r._controls name = none →
      r.create_control name =
        .error ("Control \x27" ++ name ++ "\x27 not found in registry")) ∧
    (∀ cc, dictLookup r._controls name = some cc →
      r.create_control name = .ok cc.new) ∧
    (dictLookup r._ui_renderers name = none → r.get_ui_renderer name = none) ∧
    (∀ rc, dictLookup r._ui_renderers name = some rc →
      r.get_ui_renderer name = some rc.new) := by
  unfold ControlRegistry.create_control ControlRegistry.get_ui_renderer
  refine ⟨fun h => by rw [h], fun cc h => by rw [h], fun h => by rw [h],
    fun rc h => by rw [h]⟩

/-- C8: registering a control class and then creating by the registered
name round-trips: the created instance is the class's instance and its
metadata name is the registered key. -/
theorem claim_C8_register_create_roundtrip (r : ControlRegistry)
    (cc : ControlClass) (rc : Option RendererClass) :
    (r.register_control cc rc).create_control cc.new.metadata.name = .ok cc.new ∧
    ∀ c, (r.register_control cc rc).create_control cc.new.metadata.name = .ok c →
      c.metadata.name = cc.new.metadata.name := by
  have hl : dictLookup ((r.register_control cc rc))._controls cc.new.metadata.name
      = some cc := by
    unfold ControlRegistry.register_control
    cases rc <;> simp <;> exact dictLookup_dictSet_self _ _ _
  constructor
  · unfold ControlRegistry.create_control
    rw [hl]
  · intro c hc
    unfold ControlRegistry.create_control at hc
    rw [hl] at hc
    cases hc
    rfl

theorem package_foldl_eq (svc : ArtifactService) (control_name : String) :
    ∀ (l : List (String × String)) (acc : List (String × String)),
    l.foldl
      (fun acc p =>
        match svc.generator_registry.get_generator p.1 with
        | some generator =>
            acc ++ [(ArtifactService.artifact_filename control_name p.1 generator, p.2)]
        | none => acc) acc =
    acc ++ l.filterMap (fun p =>
      (svc.generator_registry.get_generator p.1).map
        (fun g => (ArtifactService.artifact_filename control_name p.1 g, p.2))) := by
  intro l
  induction l with
  | nil => intro acc; simp
  | cons p rest ih =>
    intro acc
    simp only [List.foldl_cons, List.filterMap_cons]
    cases hg : svc.generator_registry.get_generator p.1 with
    | none => simp [hg, ih]
    | some g => simp [hg, ih]

/-- C3 counterexample: with no generator registered under the key `"x"`,
packaging the single-entry artifacts mapping `{"x": "y"}` produces an
archive whose only member is the manifest — there is no file for the
artifact entry, contradicting "exactly one file per artifact entry". -/
theorem claim_C3_counterexample :
    ([("x", "y")] : List (String × String)).length = 1 ∧
    (ArtifactService.create_download_package { generator_registry := { _generators := [] } }
        "C" [("x", "y")] t0).map Prod.fst = ["README.txt"] := by
  constructor <;> rfl

/-- C3 (amended): the archive contains one file per artifact entry whose
key resolves to a registered generator — named by the gpo/powershell/
registry/batch convention with `control_name.extension` as fallback —
entries with unregistered keys are silently skipped; exactly one manifest
`README.txt` is appended last; the artifacts mapping is not mutated (the
function is pure in the model); an empty artifacts mapping yields exactly
the manifest, and the archive is never empty. -/
theorem claim_C3_package_layout (svc : ArtifactService) (control_name : String)
    (artifacts : List (String × String)) (t : Timestamp) :
    svc.create_download_package control_name artifacts t =
      (artifacts.filterMap (fun p =>
        (svc.generator_registry.get_generator p.1).map
          (fun g => (ArtifactService.artifact_filename control_name p.1 g, p.2)))) ++
      [("README.txt", ArtifactService.generate_readme control_name t)] ∧
    svc.create_download_package control_name [] t =
      [("README.txt", ArtifactService.generate_readme control_name t)] ∧
    svc.create_download_package control_name artifacts t ≠ [] := by
  refine ⟨?_, ?_, ?_⟩
  · unfold ArtifactService.create_download_package
    rw [package_foldl_eq]
    simp
  · rfl
  · unfold ArtifactService.create_download_package
    simp

/-- C9: the mappings returned by `get_available_controls` and
`get_all_generators` are defensive copies living behind fresh references:
arbitrary mutation `f` of the returned dictionary leaves the registry's
own dictionary untouched, so `create_control`, `get_generator` and
`get_compatible_generators` afterwards behave as if the returned mapping
had never been mutated. -/
theorem claim_C9_defensive_copies (hC : Heap ControlClass) (regC : Nat)
    (hG : Heap IArtifactGenerator) (regG : Nat)
    (wfC : regC < hC.nextRef) (wfG : regG < hG.nextRef) :
    (∀ f, (((hC.get_available_controls regC).2).write
        (hC.get_available_controls regC).1 f).store regC = hC.store regC) ∧
    (∀ f name, Heap.create_control (((hC.get_available_controls regC).2).write
        (hC.get_available_controls regC).1 f) regC name
      = Heap.create_control hC regC name) ∧
    (∀ f, (((hG.get_all_generators regG).2).write
        (hG.get_all_generators regG).1 f).store regG = hG.store regG) ∧
    (∀ f name, Heap.get_generator (((hG.get_all_generators regG).2).write
        (hG.get_all_generators regG).1 f) regG name
      = Heap.get_generator hG regG name) ∧
    (∀ f s, Heap.get_compatible_generators (((hG.get_all_generators regG).2).write
        (hG.get_all_generators regG).1 f) regG s
      = Heap.get_compatible_generators hG regG s) := by
  have hne : regC ≠ hC.nextRef := Nat.ne_of_lt wfC
  have hne2 : regG ≠ hG.nextRef := Nat.ne_of_lt wfG
  refine ⟨?_, ?_, ?_, ?_, ?_⟩ <;> intros <;>
    simp [Heap.get_available_controls, Heap.get_all_generators, Heap.alloc,
      Heap.write, Heap.create_control, Heap.get_compatible_generators,
      Heap.get_generator, hne, hne2]

/-- C9 witness: the defensive-copy theorem applied to concrete one-entry
heaps. -/
theorem claim_C9_witness :
    (0 < (Heap.mk 1 (fun _ => []) : Heap ControlClass).nextRef) ∧
    (0 < (Heap.mk 1 (fun _ => []) : Heap IArtifactGenerator).nextRef) ∧
    ((∀ f, ((((Heap.mk 1 (fun _ => []) : Heap ControlClass).get_available_controls 0).2).write
        ((Heap.mk 1 (fun _ => []) : Heap ControlClass).get_available_controls 0).1 f).store 0
        = (Heap.mk 1 (fun _ => []) : Heap ControlClass).store 0) ∧
    (∀ f name, Heap.create_control ((((Heap.mk 1 (fun _ => []) : Heap ControlClass).get_available_controls 0).2).write
        ((Heap.mk 1 (fun _ => []) : Heap ControlClass).get_available_controls 0).1 f) 0 name
      = Heap.create_control (Heap.mk 1 (fun _ => []) : Heap ControlClass) 0 name) ∧
    (∀ f, ((((Heap.mk 1 (fun _ => []) : Heap IArtifactGenerator).get_all_generators 0).2).write
        ((Heap.mk 1 (fun _ => []) : Heap IArtifactGenerator).get_all_generators 0).1 f).store 0
        = (Heap.mk 1 (fun _ => []) : Heap IArtifactGenerator).store 0) ∧
    (∀ f name, Heap.get_generator ((((Heap.mk 1 (fun _ => []) : Heap IArtifactGenerator).get_all_generators 0).2).write
        ((Heap.mk 1 (fun _ => []) : Heap IArtifactGenerator).get_all_generators 0).1 f) 0 name
      = Heap.get_generator (Heap.mk 1 (fun _ => []) : Heap IArtifactGenerator) 0 name) ∧
    (∀ f s, Heap.get_compatible_generators ((((Heap.mk 1 (fun _ => []) : Heap IArtifactGenerator).get_all_generators 0).2).write
        ((Heap.mk 1 (fun _ => []) : Heap IArtifactGenerator).get_all_generators 0).1 f) 0 s
      = Heap.get_compatible_generators (Heap.mk 1 (fun _ => []) : Heap IArtifactGenerator) 0 s)) :=
  ⟨by decide, by decide,
    claim_C9_defensive_copies (Heap.mk 1 (fun _ => [])) 0 (Heap.mk 1 (fun _ => [])) 0
      (by decide) (by decide)⟩

/-- C6: `generate_all_artifacts` returns exactly the mapping that assigns
to each compatible generator's registry name the result of its
`generate(control_name, settings)` call — each compatible generator
invoked once, nothing else invoked, keyed by registry name.  (The
hypothesis that registry keys are distinct holds for every registry a
Python dict can represent.) -/
theorem claim_C6_generate_all_spec (svc : ArtifactService) (control_name : String)
    (settings : Settings) (t : Timestamp)
    (hnd : ((svc.generator_registry)._generators.map Prod.fst).Nodup) :
    svc.generate_all_artifacts control_name settings t =
      (svc.generator_registry.get_compatible_generators settings).map
        (fun p => (p.1, p.2.generate control_name settings t)) :=
  generate_all_eq_map svc control_name settings t hnd

/-- C6 witness: the composition-root registry has distinct keys, and the
characterization holds there on the file-association scenario. -/
theorem claim_C6_witness :
    ((appService.generator_registry)._generators.map Prod.fst).Nodup ∧
    appService.generate_all_artifacts "File_Association_Security" faSettings t0 =
      (appService.generator_registry.get_compatible_generators faSettings).map
        (fun p => (p.1, p.2.generate "File_Association_Security" faSettings t0)) :=
  ⟨by decide,
    claim_C6_generate_all_spec appService "File_Association_Security" faSettings t0
      (by decide)⟩

theorem isInfix_append_right {x l2 : List Char} (l1 : List Char)
    (h : List.IsInfix x l2) : List.IsInfix x (l1 ++ l2) := by
  obtain ⟨u, w, huw⟩ := h
  exact ⟨l1 ++ u, w, by rw [← huw]; simp⟩

/-- C4 counterexample: with the composition root's registry, the
file-association scenario yields artifacts for all of gpo, powershell,
registry and batch — not "exactly {registry}": the GPO generator also
declares support for `file_associations`, and powershell/batch support
everything. -/
theorem claim_C4_counterexample :
    (appService.generate_all_artifacts "File_Association_Security" faSettings t0).map
      Prod.fst = ["gpo", "powershell", "registry", "batch"] ∧
    (appService.generate_all_artifacts "File_Association_Security" faSettings t0).map
      Prod.fst ≠ ["registry"] := by
  constructor
  · rfl
  · intro h
    have h2 : (["gpo", "powershell", "registry", "batch"] : List String)
        = ["registry"] := by
      rw [← h]
      rfl
    exact absurd h2 (by decide)

set_option maxRecDepth 100000 in
/-- C4 (amended): the scenario's key set is exactly
{gpo, powershell, registry, batch} (in registration order), and the value
under "registry" is non-empty text containing both ".scr" and
"notepad.exe". -/
theorem claim_C4_file_association_scenario (t : Timestamp) :
    (appService.generate_all_artifacts "File_Association_Security" faSettings t).map
      Prod.fst = ["gpo", "powershell", "registry", "batch"] ∧
    ∃ v, dictLookup
        (appService.generate_all_artifacts "File_Association_Security" faSettings t)
        "registry" = some v ∧
      v ≠ "" ∧ List.IsInfix ".scr".data v.data ∧
      List.IsInfix "notepad.exe".data v.data := by
  constructor
  · rfl
  · refine ⟨RegistryGenerator.generate "File_Association_Security" faSettings t,
      rfl, ?_, ?_, ?_⟩
    · rw [regGenerate_split]
      apply str_append_ne_empty
      rw [String.data_append]
      intro hc
      exact absurd (List.append_eq_nil.mp hc).1 (by decide)
    · rw [regGenerate_split]
      rw [String.data_append, String.data_append, List.append_assoc]
      exact isInfix_append_right _ (isInfix_append_right _ (by decide))
    · rw [regGenerate_split]
      rw [String.data_append, String.data_append, List.append_assoc]
      exact isInfix_append_right _ (isInfix_append_right _ (by decide))

theorem dictLookup_map_keyed {G V : Type} (F : String × G → V) :
    ∀ (l : List (String × G)) (k : String),
    dictLookup (l.map (fun p => (p.1, F p))) k =
      (l.find? (fun p => p.1 == k)).map F := by
  intro l
  induction l with
  | nil => intro k; rfl
  | cons p rest ih =>
    intro k
    simp only [List.map_cons, dictLookup, List.find?]
    by_cases h : p.1 = k
    · have hb : (p.1 == k) = true := by simp [h]
      simp [h, hb]
    · have hb : (p.1 == k) = false := by simp [h]
      simp [h, hb, ih]

theorem app_generator_decomp (p : String × IArtifactGenerator)
    (hp : p ∈ (AppFactory.create_generator_registry)._generators)
    (n : String) (s : Settings) :
    ∃ pre suf stamp,
      ((stamp = fun u : Timestamp => u.ymd_hms) ∨
       (stamp = fun u : Timestamp => pyXmlEscape u.ymd_hm)) ∧
      ∀ t, p.2.generate n s t = pre ++ stamp t ++ suf := by
  have hreg : (AppFactory.create_generator_registry)._generators =
      [("gpo", GPOXMLGenerator), ("powershell", PowerShellGenerator),
       ("registry", RegistryGenerator), ("batch", BatchGenerator)] := rfl
  rw [hreg] at hp
  simp only [List.mem_cons, List.not_mem_nil, or_false] at hp
  rcases hp with h | h | h | h
  · subst h
    exact ⟨gpoPre, gpoSuffix n s, _, Or.inr rfl, fun t => gpoGenerate_split n s t⟩
  · subst h
    exact ⟨_, _, _, Or.inl rfl, fun t => psGenerate_split n s t⟩
  · subst h
    exact ⟨_, _, _, Or.inl rfl, fun t => regGenerate_split n s t⟩
  · subst h
    exact ⟨_, _, _, Or.inl rfl, fun t => batchGenerate_split n s t⟩

/-- C5: two `generate_all` calls with identical `(control_name, settings)`
have the same key set in the same order, and each artifact's text is
byte-identical between the calls except for the single embedded timestamp
field (the `%Y-%m-%d %H:%M:%S` stamp, or for the GPO artifact the escaped
`%Y%m%d%H%M` stamp inside the Identifier): each value factors as
`pre ++ stamp(t) ++ suf` with `pre`/`suf` shared by both calls. -/
theorem claim_C5_idempotence_mod_timestamp (control_name : String)
    (settings : Settings) (t1 t2 : Timestamp) :
    (appService.generate_all_artifacts control_name settings t1).map Prod.fst =
      (appService.generate_all_artifacts control_name settings t2).map Prod.fst ∧
    ∀ k v1,
      dictLookup (appService.generate_all_artifacts control_name settings t1) k
        = some v1 →
      ∃ v2 pre suf stamp,
        dictLookup (appService.generate_all_artifacts control_name settings t2) k
          = some v2 ∧
        ((stamp = fun u : Timestamp => u.ymd_hms) ∨
         (stamp = fun u : Timestamp => pyXmlEscape u.ymd_hm)) ∧
        v1 = pre ++ stamp t1 ++ suf ∧ v2 = pre ++ stamp t2 ++ suf := by
  have hnd : ((appService.generator_registry)._generators.map Prod.fst).Nodup := by
    decide
  have e1 := generate_all_eq_map appService control_name settings t1 hnd
  have e2 := generate_all_eq_map appService control_name settings t2 hnd
  constructor
  · rw [e1, e2, List.map_map, List.map_map]
    simp [Function.comp]
  · intro k v1 h1
    rw [e1, dictLookup_map_keyed] at h1
    rcases Option.map_eq_some'.mp h1 with ⟨p0, hfind, hv1⟩
    have hmem : p0 ∈ appService.generator_registry.get_compatible_generators settings :=
      List.mem_of_find?_eq_some hfind
    have hsub : List.Sublist
        (appService.generator_registry.get_compatible_generators settings)
        ((appService.generator_registry)._generators) := by
      rw [get_compatible_generators_eq_filter]
      exact List.filter_sublist _
    obtain ⟨pre, suf, stamp, hstamp, hgen⟩ :=
      app_generator_decomp p0 (hsub.subset hmem) control_name settings
    refine ⟨pre ++ stamp t2 ++ suf, pre, suf, stamp, ?_, hstamp, ?_, rfl⟩
    · rw [e2, dictLookup_map_keyed, hfind]
      simp [hgen t2]
    · rw [← hv1]
      exact hgen t1

theorem find?_isSome_of_dictLookup {G : Type} :
    ∀ (l : List (String × G)) (k : String) (v : G),
    dictLookup l k = some v → (l.find? (fun p => p.1 == k)).isSome = true := by
  intro l
  induction l with
  | nil => intro k v h; cases h
  | cons p rest ih =>
    intro k v h
    simp only [dictLookup] at h
    by_cases hk : p.1 = k
    · have hb : (p.1 == k) = true := by simp [hk]
      simp [List.find?, hb]
    · have hb : (p.1 == k) = false := by simp [hk]
      simp only [List.find?, hb]
      exact ih k v (by simpa [hk] using h)

/-- C10: `PowerShellGenerator` and `BatchGenerator` keep the inherited
`BaseArtifactGenerator.supports_settings`, which accepts every settings
mapping, so every settings mapping (including `{}`) is compatible with at
least the `powershell` and `batch` entries of the composition-root
registry, and every `generate_all` call produces artifacts under both
keys. -/
theorem claim_C10_ps_batch_unconditional (s : Settings) (control_name : String)
    (t : Timestamp) :
    PowerShellGenerator.supports_settings = BaseArtifactGenerator.supports_settings ∧
    BatchGenerator.supports_settings = BaseArtifactGenerator.supports_settings ∧
    PowerShellGenerator.supports_settings s = true ∧
    BatchGenerator.supports_settings s = true ∧
    dictLookup ((AppFactory.create_generator_registry).get_compatible_generators s)
      "powershell" = some PowerShellGenerator ∧
    dictLookup ((AppFactory.create_generator_registry).get_compatible_generators s)
      "batch" = some BatchGenerator ∧
    (dictLookup (appService.generate_all_artifacts control_name s t)
      "powershell").isSome = true ∧
    (dictLookup (appService.generate_all_artifacts control_name s t)
      "batch").isSome = true := by
  have hreg : (AppFactory.create_generator_registry)._generators =
      [("gpo", GPOXMLGenerator), ("powershell", PowerShellGenerator),
       ("registry", RegistryGenerator), ("batch", BatchGenerator)] := rfl
  have hps : dictLookup
      ((AppFactory.create_generator_registry).get_compatible_generators s)
      "powershell" = some PowerShellGenerator := by
    rw [get_compatible_generators_eq_filter, hreg]
    by_cases h1 : dictContains s "file_associations" <;>
      by_cases h2 : dictContains s "firewall_rules" <;>
        simp [h1, h2, List.filter, GPOXMLGenerator, PowerShellGenerator,
          RegistryGenerator, BatchGenerator, GPOXMLGenerator.supports_settings,
          RegistryGenerator.supports_settings, BaseArtifactGenerator.supports_settings,
          dictLookup]
  have hbatch : dictLookup
      ((AppFactory.create_generator_registry).get_compatible_generators s)
      "batch" = some BatchGenerator := by
    rw [get_compatible_generators_eq_filter, hreg]
    by_cases h1 : dictContains s "file_associations" <;>
      by_cases h2 : dictContains s "firewall_rules" <;>
        simp [h1, h2, List.filter, GPOXMLGenerator, PowerShellGenerator,
          RegistryGenerator, BatchGenerator, GPOXMLGenerator.supports_settings,
          RegistryGenerator.supports_settings, BaseArtifactGenerator.supports_settings,
          dictLookup]
  have e := generate_all_eq_map appService control_name s t (by decide)
  have hsvc : appService.generator_registry = AppFactory.create_generator_registry := rfl
  refine ⟨rfl, rfl, rfl, rfl, hps, hbatch, ?_, ?_⟩
  · rw [e, dictLookup_map_keyed, hsvc]
    have hf := find?_isSome_of_dictLookup _ _ _ hps
    rcases Option.isSome_iff_exists.mp hf with ⟨a, ha⟩
    rw [ha]
    rfl
  · rw [e, dictLookup_map_keyed, hsvc]
    have hf := find?_isSome_of_dictLookup _ _ _ hbatch
    rcases Option.isSome_iff_exists.mp hf with ⟨a, ha⟩
    rw [ha]
    rfl
